import Mathlib

/-!
Shallow embedding of the core of the ai-camera-monitor repository:

* `sam2Service.ts` — the SAM2 interactive segmentation engine: model-loading
  lifecycle (`initialize`, here `initStep`), demo fallback
  (`createDemoSegmentation`), image preprocessing (`preprocessImage`),
  mask post-processing (`processMasks`), configuration (`updateConfig`),
  readiness (`isReady`).
* `CameraFeed` component — the motion-gated capture/detection loop:
  `detectMotion`, `captureFrame` (split into its synchronous phase and the
  asynchronous response-handler continuation), the capture-timer effect.

Browser and network effects (canvas resizing, ONNX sessions, `fetch`,
`Math.random`) are modelled as explicit oracle inputs; machine floats are
modelled as rationals.
-/

namespace CameraMonitor

/-! ## SAM2 service: configuration and state (sam2Service.ts lines 24-46) -/

/-- Model size options of `SAM2Config.modelSize`. -/
inductive ModelSize
  | tiny
  | small
  | base
  | large
  deriving DecidableEq, Repr

/-- Embedding of the TypeScript interface `SAM2Config`. -/
structure SAM2Config where
  modelSize : ModelSize
  useWebGPU : Bool
  multimaskOutput : Bool
  deriving DecidableEq, Repr

/-- Embedding of `Partial SAM2Config` as passed to `updateConfig`: every field
optional. -/
structure PartialSAM2Config where
  modelSize : Option ModelSize := none
  useWebGPU : Option Bool := none
  multimaskOutput : Option Bool := none
  deriving DecidableEq, Repr

/-- Embedding of the object spread `\x7b ...this.config, ...newConfig \x7d`:
a field of the update, when present, overrides the existing field. -/
def mergeConfig (c : SAM2Config) (p : PartialSAM2Config) : SAM2Config where
  modelSize := p.modelSize.getD c.modelSize
  useWebGPU := p.useWebGPU.getD c.useWebGPU
  multimaskOutput := p.multimaskOutput.getD c.multimaskOutput

/-- ONNX sessions and tensors are opaque handles; only identity matters. -/
abbrev Handle := ℕ

/-- Mutable fields of the `SAM2Service` class (sam2Service.ts lines 31-38). -/
structure SAM2State where
  encoderSession : Option Handle
  decoderSession : Option Handle
  imageEmbeddings : Option Handle
  highResFeats0 : Option Handle
  highResFeats1 : Option Handle
  isModelLoaded : Bool
  isLoading : Bool
  config : SAM2Config
  deriving DecidableEq, Repr

/-- Field initializers plus the constructor of `SAM2Service`. -/
def SAM2State.mk0 (cfg : SAM2Config) : SAM2State where
  encoderSession := none
  decoderSession := none
  imageEmbeddings := none
  highResFeats0 := none
  highResFeats1 := none
  isModelLoaded := false
  isLoading := false
  config := cfg

/-- How one call of `initialize()` (sam2Service.ts lines 48-115) ended. -/
inductive InitCode
  | skippedGuard
  | demoReady
  | realReady
  | loadFailed
  deriving DecidableEq, Repr

/-- Result of one `initialize()` call: the state afterwards, how the call
ended, and whether a model load was attempted. -/
structure InitResult where
  state : SAM2State
  code : InitCode
  loadAttempted : Bool
  deriving DecidableEq, Repr

/-- Embedding of `initialize()` (sam2Service.ts lines 48-115).
External effects are oracles: `modelsAvailable` is the result of the
`checkModelsAvailable` HEAD probe (that helper catches its own exceptions and
returns a boolean), and `loadResult` is the outcome of
`Promise.all([loadEncoderModel, loadDecoderModel])` — `some` sessions on
success, `none` when either load throws.  Every non-guard exit runs the
`finally` block, which sets `isLoading` back to `false`; on a load failure the
sessions and `isModelLoaded` are untouched and the error is rethrown
(code `loadFailed`). -/
def initStep (st : SAM2State) (modelsAvailable : Bool)
    (loadResult : Option (Handle × Handle)) : InitResult :=
  if st.isModelLoaded || st.isLoading then
    -- re-entry guard: log and return immediately
    ⟨st, .skippedGuard, false⟩
  else if !modelsAvailable then
    -- demo mode: mark as loaded, no model load attempted; finally clears isLoading
    ⟨{ st with isModelLoaded := true, isLoading := false }, .demoReady, false⟩
  else
    match loadResult with
    | some (enc, dec) =>
        ⟨{ st with encoderSession := some enc, decoderSession := some dec,
                   isModelLoaded := true, isLoading := false }, .realReady, true⟩
    | none =>
        -- catch rethrows; finally still resets isLoading
        ⟨{ st with isLoading := false }, .loadFailed, true⟩

/-- Embedding of `isReady()` (sam2Service.ts lines 449-451). -/
def isReady (st : SAM2State) : Bool :=
  st.isModelLoaded

/-- Embedding of `updateConfig` (sam2Service.ts lines 459-466): refuses any
change once the service reports itself loaded, otherwise merges the partial
configuration over the current one. -/
def updateConfig (st : SAM2State) (newConfig : PartialSAM2Config) : SAM2State :=
  if st.isModelLoaded then st
  else { st with config := mergeConfig st.config newConfig }

/-- Errors thrown by the service methods. -/
inductive SAMError
  | notInitialized
  | encodingFailed
  deriving DecidableEq, Repr

/-- Embedding of `encodeImage` (sam2Service.ts lines 223-266).  The encoder
run is an oracle: `encOutput` gives the three output tensors, `none` meaning
the run threw.  Demo mode (no encoder session) returns without touching the
state; the real path caches the three tensors together. -/
def encodeImage (st : SAM2State) (encOutput : Option (Handle × Handle × Handle)) :
    Except SAMError SAM2State :=
  if !st.isModelLoaded then .error .notInitialized
  else
    match st.encoderSession with
    | none => .ok st
    | some _ =>
        match encOutput with
        | some (emb, h0, h1) =>
            .ok { st with imageEmbeddings := some emb,
                          highResFeats0 := some h0, highResFeats1 := some h1 }
        | none => .error .encodingFailed

/-! ## Image preprocessing (sam2Service.ts lines 361-397) -/

/-- Fixed target side length of the encoder input (`targetSize = 1024`). -/
def targetSize : ℕ := 1024

/-- Number of pixels in one colour plane of the encoder input. -/
def planeSize : ℕ := targetSize * targetSize

/-- Embedding of the normalization loop of `preprocessImage`: `pixels` is the
RGBA byte buffer of the image after the canvas has stretched it to
1024x1024 (`resizedImageData.data`, one `Uint8ClampedArray` entry per
channel).  For each pixel index `i` the loop writes channel `R` at output
index `i`, `G` at `planeSize + i` and `B` at `2*planeSize + i`, each value
the raw byte divided by 255; the three planes together are exactly the three
concatenated ranges below. -/
def preprocessCore (pixels : List ℕ) : List ℚ :=
  ((List.range planeSize).map fun i => (pixels.getD (4 * i) 0 : ℚ) / 255) ++
  ((List.range planeSize).map fun i => (pixels.getD (4 * i + 1) 0 : ℚ) / 255) ++
  ((List.range planeSize).map fun i => (pixels.getD (4 * i + 2) 0 : ℚ) / 255)

/-- Embedding of `preprocessImage`: the canvas `drawImage` stretch of the
arbitrary-resolution source to 1024x1024 is the oracle `resize` (it always
yields a 4*1024*1024-byte RGBA buffer of bytes at most 255 — hypotheses of
the theorems below); the numeric part is `preprocessCore`. -/
def preprocessImage (resize : List ℕ → List ℕ) (raw : List ℕ) : List ℚ :=
  preprocessCore (resize raw)

/-! ## Masks and segmentation results (sam2Service.ts lines 6-22) -/

/-- Embedding of the interface `SAM2Point`; `label` is `1` for a positive
prompt and `0` for a negative prompt, coordinates are pixel-space floats. -/
structure SAM2Point where
  x : ℚ
  y : ℚ
  label : ℕ
  deriving DecidableEq, Repr

/-- Embedding of the interface `SAM2Mask` (`data` is the `Uint8Array`). -/
structure SAM2Mask where
  data : List ℕ
  width : ℕ
  height : ℕ
  deriving DecidableEq, Repr

/-- Embedding of the interface `SAM2Result`. -/
structure SAM2Result where
  masks : List SAM2Mask
  scores : List ℚ
  processingTime : ℚ
  deriving DecidableEq, Repr

/-! ## Mask post-processing (sam2Service.ts lines 399-423) -/

/-- Embedding of `processMasks`: the decoder mask tensor has dims
`[batch, numMasks, height, width]` and flat data `data`; for each `i` below
`numMasks` the slice `[i*h*w, (i+1)*h*w)` is binarized by thresholding at 0
(positive values become 255, the rest 0). -/
def processMasks (numMasks height width : ℕ) (data : List ℚ) : List SAM2Mask :=
  (List.range numMasks).map fun i =>
    let maskValues := (data.drop (i * (height * width))).take (height * width)
    { data := maskValues.map fun v => if v > 0 then 255 else 0
      width := width
      height := height }

/-- Decoder outputs consumed by `segment` in the real-model path: the `masks`
tensor (dims and flat data) and the flat data of `iou_predictions`. -/
structure DecoderOut where
  batch : ℕ
  numMasks : ℕ
  height : ℕ
  width : ℕ
  masksData : List ℚ
  iouData : List ℚ
  deriving DecidableEq, Repr

/-- Embedding of the result assembly of the real-model path of `segment`
(sam2Service.ts lines 343-354): masks from `processMasks`, scores taken
verbatim from the decoder's `iou_predictions` data. -/
def segmentReal (dec : DecoderOut) (elapsed : ℚ) : SAM2Result where
  masks := processMasks dec.numMasks dec.height dec.width dec.masksData
  scores := dec.iouData
  processingTime := elapsed

/-! ## Demo fallback generator (sam2Service.ts lines 154-221) -/

/-- Random draws consumed for one positive point of the demo generator:
`size` is the `Math.random()` of `maskSize = 100 + Math.random() * 50`,
`noise x y` the per-pixel `Math.random()` of the edge perturbation, and
`score` the `Math.random()` of `0.7 + Math.random() * 0.25`.  Each draw lies
in `[0, 1)`. -/
structure DemoRand where
  size : ℚ
  noise : ℤ → ℤ → ℚ
  score : ℚ

/-- One pixel of a demo mask.  The source sets the pixel to 255 when
`distance < radius` and `distance / radius + Math.random() * 0.3 < 1`, with
`distance = sqrt((x-cx)^2 + (y-cy)^2)`.  Writing `n` for the draw, the
second test is `distance < radius * (1 - 3*n/10)`, and each comparison
`distance < r` of the nonnegative `distance` against `r` is equivalent to
`0 ≤ r ∧ distance^2 < r^2`, which avoids the square root. -/
def demoMaskPixel (cx cy : ℤ) (radius : ℚ) (noise : ℤ → ℤ → ℚ) (x y : ℤ) : ℕ :=
  let dist2 : ℚ := ((x - cx) ^ 2 + (y - cy) ^ 2 : ℤ)
  let cutoff : ℚ := radius * (1 - 3 * noise x y / 10)
  if (0 ≤ radius ∧ dist2 < radius ^ 2) ∧ (0 ≤ cutoff ∧ dist2 < cutoff ^ 2)
  then 255 else 0

/-- The circular demo mask written row-major into a `width*height` zero
buffer (sam2Service.ts lines 167-189). -/
def demoMask (width height : ℕ) (cx cy : ℤ) (radius : ℚ)
    (noise : ℤ → ℤ → ℚ) : List ℕ :=
  (List.range height).flatMap fun y =>
    (List.range width).map fun x =>
      demoMaskPixel cx cy radius noise (x : ℕ) (y : ℕ)

/-- The `points.forEach` accumulation of `createDemoSegmentation`, expressed
as structural recursion: point `k` (0-based) with label 1 appends one mask
(center the floors of its coordinates, radius `(100 + rand*50)/2`) and one
score `0.7 + rand*0.25`; any other label appends nothing. -/
def demoStep (rands : ℕ → DemoRand) (width height : ℕ) :
    ℕ → List SAM2Point → List SAM2Mask × List ℚ
  | _, [] => ([], [])
  | k, p :: ps =>
    let rest := demoStep rands width height (k + 1) ps
    if p.label = 1 then
      let r := rands k
      let maskSize : ℚ := 100 + r.size * 50
      let radius : ℚ := maskSize / 2
      ({ data := demoMask width height ⌊p.x⌋ ⌊p.y⌋ radius r.noise
         width := width, height := height } :: rest.1,
       (7 / 10 + r.score * (25 / 100) : ℚ) :: rest.2)
    else rest

/-- Embedding of `createDemoSegmentation` (sam2Service.ts lines 154-221):
`rands` supplies the random draws of point `k`, `procRand` the draw of
`processingTime = 50 + Math.random() * 100`; the image only contributes its
pixel dimensions. -/
def createDemoSegmentation (rands : ℕ → DemoRand) (procRand : ℚ)
    (points : List SAM2Point) (width height : ℕ) : SAM2Result :=
  let acc := demoStep rands width height 0 points
  { masks := acc.1, scores := acc.2, processingTime := 50 + procRand * 100 }

/-! ## CameraFeed: watch targets and detection responses -/

/-- Embedding of the interface `WatchTarget` (CameraFeed lines 12-16);
`confidence` is the configured detection threshold. -/
structure WatchTarget where
  description : String
  referenceImage : Option String
  confidence : ℚ
  deriving DecidableEq, Repr

/-- Frames are identified by their JPEG data URL. -/
abbrev Frame := String

/-- Fields shared by the vision model's parsed reply inside the
`/api/detect` route and by the route's own JSON response as the capture loop
consumes it (`result.detected`, `result.confidence`). -/
structure DetectResponse where
  detected : Bool
  confidence : ℚ
  deriving DecidableEq, Repr

/-- Fields of the alert object handed to `onDetection` (CameraFeed lines
351-359) that the claims mention; presentation-only fields (timestamp,
message text) are omitted. -/
structure DetectionAlert where
  detected : Bool
  confidence : ℚ
  image : Frame
  deriving DecidableEq, Repr

/-! ## Motion detection (CameraFeed lines 106-160) -/

/-- Result of `detectMotion`. -/
structure MotionResult where
  hasMotion : Bool
  changePercent : ℚ
  deriving DecidableEq, Repr

/-- Per-pixel test of the motion loop: the summed absolute RGB difference of
the pixel starting at byte index `4*p` exceeds 30. -/
def pixelDiffers (d1 d2 : List ℕ) (p : ℕ) : Bool :=
  ((d1.getD (4 * p) 0 : ℤ) - d2.getD (4 * p) 0).natAbs +
    ((d1.getD (4 * p + 1) 0 : ℤ) - d2.getD (4 * p + 1) 0).natAbs +
    ((d1.getD (4 * p + 2) 0 : ℤ) - d2.getD (4 * p + 2) 0).natAbs > 30

/-- The `diffPixels` count of `detectMotion`: the loop walks `data1` in
strides of 4 bytes and counts pixels whose RGB difference exceeds 30. -/
def motionDiffCount (d1 d2 : List ℕ) : ℕ :=
  (List.range (d1.length / 4)).countP fun p => pixelDiffers d1 d2 p

/-- Embedding of `detectMotion` (CameraFeed lines 106-160).  `downscale` is
the canvas pipeline drawing a frame at the fixed 160x120 comparison
resolution and reading its RGBA bytes back; without a previous frame or with
motion detection disabled the function reports full motion, otherwise
`changePercent = diffPixels / totalPixels * 100` and motion holds when the
percentage strictly exceeds `motionThreshold * 100`. -/
def detectMotion (downscale : Frame → List ℕ) (lastFrame : Option Frame)
    (motionDetection : Bool) (motionThreshold : ℚ) (currentFrame : Frame) :
    MotionResult :=
  match lastFrame, motionDetection with
  | none, _ => ⟨true, 100⟩
  | some _, false => ⟨true, 100⟩
  | some lf, true =>
    let d1 := downscale lf
    let d2 := downscale currentFrame
    let totalPixels : ℚ := (d1.length / 4 : ℕ)
    let changePercent : ℚ := (motionDiffCount d1 d2 : ℚ) / totalPixels * 100
    ⟨changePercent > motionThreshold * 100, changePercent⟩

/-! ## Complex-action classification (CameraFeed lines 268-277) -/

/-- Character-list version of `startsWith`: the first argument occurs at the
head of the second. -/
def charsStartWith : List Char → List Char → Bool
  | [], _ => true
  | _ :: _, [] => false
  | p :: ps, c :: cs => p == c && charsStartWith ps cs

/-- Character-list version of substring occurrence. -/
def charsOccurIn (pat : List Char) : List Char → Bool
  | [] => pat.isEmpty
  | c :: cs => charsStartWith pat (c :: cs) || charsOccurIn pat cs

/-- Embedding of `String.prototype.includes`: the pattern occurs somewhere in
the string. -/
def strIncludes (s pat : String) : Bool :=
  charsOccurIn pat.data s.data

/-- The fixed keyword set of the `isComplexAction` test. -/
def complexKeywords : List String :=
  ["falling", "breaking", "distress", "suspicious", "climbing",
   "weapon", "emergency", "unconscious", "collapsed"]

/-- Embedding of the `description.includes(...) || ...` chain deciding
whether a watch target needs multi-frame context. -/
def isComplexAction (description : String) : Bool :=
  complexKeywords.any fun k => strIncludes description k

/-! ## The capture tick (CameraFeed lines 217-508) -/

/-- Component state read by one run of `captureFrame`. -/
structure CaptureState where
  frameBuffer : List Frame
  lastFrame : Option Frame
  processingFrame : Bool
  deriving DecidableEq, Repr

/-- Component configuration read by one run of `captureFrame`; `downscale`
is the canvas oracle of `detectMotion`. -/
structure CaptureConfig where
  motionDetection : Bool
  motionThreshold : ℚ
  downscale : Frame → List ℕ

/-- The JS `Array.prototype.slice(-3)` applied after appending the new frame
(CameraFeed line 241): keep at most the last three elements. -/
def lastThree (l : List Frame) : List Frame :=
  l.drop (l.length - 3)

/-- Net effect of one `captureFrame` run on the component: whether the
detection endpoint was called, the frame-buffer and last-frame bookkeeping
afterwards, and the alert passed to `onDetection` (if any). -/
structure CaptureOutcome where
  detectionCalled : Bool
  frameBuffer : List Frame
  lastFrame : Option Frame
  alert : Option DetectionAlert
  deriving DecidableEq, Repr

/-- Synchronous phase of `captureFrame`, up to (and excluding) the `fetch` of
`/api/detect`: either the tick ends without a detection call (`noCall`, with
the resulting bookkeeping) or the call is dispatched (`call`, with the
bookkeeping in force while the call is in flight). -/
inductive CapturePhase1
  | noCall (outcome : CaptureOutcome)
  | call (frameBuffer : List Frame) (lastFrame : Option Frame)
  deriving DecidableEq, Repr

/-- Embedding of `captureFrame` up to the detection `fetch` (CameraFeed
lines 217-307).  The source checks its early-return guards in the order
no-watch-target, tick-in-flight, failed-screenshot; all three return with
nothing changed, so they are matched together here.  Then the frame buffer
is updated before the motion gate; the motion gate (only with motion
detection on and a previous frame present) returns after updating
`lastFrame` when no motion is found; a complex-action target with fewer than
two buffered frames returns without calling; otherwise the detection call is
dispatched. -/
def capturePhase1 (cfg : CaptureConfig) (st : CaptureState)
    (watchTarget : Option WatchTarget) (frame : Option Frame) : CapturePhase1 :=
  match watchTarget, frame with
  | none, _ =>
    -- missing watch target: return with nothing changed
    .noCall ⟨false, st.frameBuffer, st.lastFrame, none⟩
  | some _, none =>
    -- failed screenshot: return with nothing changed
    .noCall ⟨false, st.frameBuffer, st.lastFrame, none⟩
  | some target, some img =>
    if st.processingFrame then
      -- previous tick still in flight: return with nothing changed
      .noCall ⟨false, st.frameBuffer, st.lastFrame, none⟩
    else
      let newFrameBuffer := lastThree (st.frameBuffer ++ [img])
      let motionGateSkips :=
        cfg.motionDetection && st.lastFrame.isSome &&
          !(detectMotion cfg.downscale st.lastFrame cfg.motionDetection
              cfg.motionThreshold img).hasMotion
      if motionGateSkips then
        .noCall ⟨false, newFrameBuffer, some img, none⟩
      else if isComplexAction target.description && newFrameBuffer.length < 2 then
        .noCall ⟨false, newFrameBuffer, some img, none⟩
      else
        .call newFrameBuffer (some img)

/-- Embedding of the continuation of `captureFrame` after the detection call
resolves (CameraFeed lines 331-361): on a successful response the alert
object is built from `result.detected` and `result.confidence` and handed to
`onDetection`; an error response or a thrown error produces no alert.  The
continuation closes over the target and the captured frame only — it does
not read the monitoring flag. -/
def capturePhase2 (img : Frame) (response : Option DetectResponse) :
    Option DetectionAlert :=
  response.map fun r => ⟨r.detected, r.confidence, img⟩

/-- One whole `captureFrame` tick: the synchronous phase, and when it
dispatches the call, the continuation applied to the response. -/
def captureFrame (cfg : CaptureConfig) (st : CaptureState)
    (watchTarget : Option WatchTarget) (frame : Option Frame)
    (response : Option DetectResponse) : CaptureOutcome :=
  match capturePhase1 cfg st watchTarget frame with
  | .noCall outcome => outcome
  | .call newFrameBuffer newLastFrame =>
      { detectionCalled := true
        frameBuffer := newFrameBuffer
        lastFrame := newLastFrame
        alert := match frame with
          | some img => capturePhase2 img response
          | none => none }

/-! ## The capture-timer effect (CameraFeed lines 510-525) -/

/-- Embedding of the `useEffect` managing the periodic capture timer:
after the effect runs, an interval exists exactly when monitoring is on and
a watch target is configured; otherwise any existing interval was cleared. -/
def timerAfterEffect (isMonitoring : Bool) (watchTarget : Option WatchTarget) :
    Bool :=
  isMonitoring && watchTarget.isSome

/-- Timeline of the scenario in which monitoring is stopped while a
detection call is in flight: the synchronous phase of the tick ran first; the
stop re-runs the timer effect with monitoring off (clearing the interval);
the pending continuation then resolves and runs `capturePhase2`, which has no
access to the monitoring flag.  Returns whether the timer is still active
and the alert surfaced by the late resolution. -/
def stopMonitoringMidFlight (cfg : CaptureConfig) (st : CaptureState)
    (target : WatchTarget) (img : Frame) (response : Option DetectResponse) :
    Bool × Option DetectionAlert :=
  match capturePhase1 cfg st (some target) (some img) with
  | .noCall _ => (timerAfterEffect false (some target), none)
  | .call _ _ => (timerAfterEffect false (some target), capturePhase2 img response)

/-! ## The detection endpoint -/

/-- Embedding of the confidence-threshold application of the `/api/detect`
POST handler (second document of
src/ai-camera-monitor/src/app/api/health/route.ts, lines 329-355, the
threshold itself at 330-334): after the route has parsed the vision model's
reply and type-validated it (for a response already carrying a boolean
`detected` and a numeric `confidence`, as `upstream` does by typing, those
validation steps are identities), it sets `result.detected = false` whenever
`result.confidence < target.confidence` and builds `finalResult` from the
resulting `detected` and the unchanged `confidence`. -/
def detectRoute (upstream : DetectResponse) (target : WatchTarget) :
    DetectResponse where
  detected := if upstream.confidence < target.confidence then false
              else upstream.detected
  confidence := upstream.confidence

/-! ## Theorems about the engine lifecycle -/

/-- C1, counterexample.  Claimed: after a run of `initialize()` in which the
artifacts are reachable but the load throws, the engine remains permanently
in the LOADING state, so every subsequent `initialize()` is blocked by the
re-entry guard and never attempts another load.  In fact, starting from the
fresh state, a failing load leaves `isLoading = false` (the `finally` block
clears it), and a subsequent `initialize()` passes the guard, attempts the
load, and can succeed. -/
theorem init_stuck_loading_counterexample :
    (initStep (SAM2State.mk0 ⟨.tiny, true, true⟩) true none).code =
      InitCode.loadFailed ∧
    (initStep (SAM2State.mk0 ⟨.tiny, true, true⟩) true none).state.isLoading =
      false ∧
    (initStep (initStep (SAM2State.mk0 ⟨.tiny, true, true⟩) true none).state
        true (some (1, 2))).code = InitCode.realReady ∧
    (initStep (initStep (SAM2State.mk0 ⟨.tiny, true, true⟩) true none).state
        true (some (1, 2))).loadAttempted = true := by
  decide

/-- C1, amended.  When the artifacts are reachable but the load throws, the
call ends with the fatal error (`loadFailed`), and the `finally` block resets
`isLoading`, so the engine is left neither loaded nor loading; consequently
no subsequent `initialize()` call is blocked by the re-entry guard, and any
subsequent call that again finds the artifacts reachable attempts the load
again. -/
theorem init_failure_resets_loading (st : SAM2State)
    (hLoaded : st.isModelLoaded = false) (hLoading : st.isLoading = false) :
    (initStep st true none).code = InitCode.loadFailed ∧
    (initStep st true none).state.isLoading = false ∧
    (initStep st true none).state.isModelLoaded = false ∧
    (∀ avail load,
      (initStep (initStep st true none).state avail load).code ≠
        InitCode.skippedGuard) ∧
    (∀ load,
      (initStep (initStep st true none).state true load).loadAttempted = true) := by
  have h1 : initStep st true none =
      ⟨{ st with isLoading := false }, .loadFailed, true⟩ := by
    simp [initStep, hLoaded, hLoading]
  refine ⟨by rw [h1], by rw [h1], by rw [h1]; exact hLoaded, ?_, ?_⟩
  · intro avail load
    rw [h1]
    simp only [initStep, hLoaded]
    cases avail <;> cases load <;> simp
  · intro load
    rw [h1]
    simp only [initStep, hLoaded]
    cases load <;> simp

/-- C1 witness: the amended theorem applied to the fresh service state. -/
theorem init_failure_resets_loading_witness :
    ((SAM2State.mk0 ⟨.tiny, true, true⟩).isModelLoaded = false ∧
      (SAM2State.mk0 ⟨.tiny, true, true⟩).isLoading = false) ∧
    (initStep (SAM2State.mk0 ⟨.tiny, true, true⟩) true none).code =
      InitCode.loadFailed ∧
    (initStep (SAM2State.mk0 ⟨.tiny, true, true⟩) true none).state.isLoading =
      false :=
  ⟨⟨rfl, rfl⟩,
    (init_failure_resets_loading (SAM2State.mk0 ⟨.tiny, true, true⟩) rfl rfl).1,
    (init_failure_resets_loading (SAM2State.mk0 ⟨.tiny, true, true⟩) rfl rfl).2.1⟩

/-- C8: when the artifacts probe fails, `initialize()` ends in demo mode
without attempting a model load (whatever the load oracle would have
returned), `isReady()` then reports `true`, and `encodeImage` returns
successfully without changing the state or caching an embedding. -/
theorem init_demo_mode (st : SAM2State)
    (hLoaded : st.isModelLoaded = false) (hLoading : st.isLoading = false)
    (hEnc : st.encoderSession = none) (hEmb : st.imageEmbeddings = none) :
    ∀ loadResult,
      (initStep st false loadResult).code = InitCode.demoReady ∧
      (initStep st false loadResult).loadAttempted = false ∧
      isReady (initStep st false loadResult).state = true ∧
      (∀ encOutput,
        encodeImage (initStep st false loadResult).state encOutput =
          .ok (initStep st false loadResult).state) ∧
      (initStep st false loadResult).state.imageEmbeddings = none := by
  intro loadResult
  have h1 : initStep st false loadResult =
      ⟨{ st with isModelLoaded := true, isLoading := false }, .demoReady, false⟩ := by
    simp [initStep, hLoaded, hLoading]
  refine ⟨by rw [h1], by rw [h1], by rw [h1]; rfl, ?_, by rw [h1]; exact hEmb⟩
  intro encOutput
  rw [h1]
  simp [encodeImage, hEnc]

/-- C8 witness: the theorem applied to the fresh service state. -/
theorem init_demo_mode_witness :
    ((SAM2State.mk0 ⟨.tiny, true, true⟩).isModelLoaded = false ∧
      (SAM2State.mk0 ⟨.tiny, true, true⟩).encoderSession = none) ∧
    (initStep (SAM2State.mk0 ⟨.tiny, true, true⟩) false none).code =
      InitCode.demoReady ∧
    isReady (initStep (SAM2State.mk0 ⟨.tiny, true, true⟩) false none).state =
      true :=
  ⟨⟨rfl, rfl⟩,
    (init_demo_mode (SAM2State.mk0 ⟨.tiny, true, true⟩) rfl rfl rfl rfl none).1,
    (init_demo_mode (SAM2State.mk0 ⟨.tiny, true, true⟩) rfl rfl rfl rfl none).2.2.1⟩

/-- C10: once the service reports itself loaded (`isModelLoaded = true`,
which includes demo mode), `updateConfig` is a no-op — the whole state, in
particular the stored configuration, is unchanged; before loading it merges
the partial update over the existing configuration. -/
theorem updateConfig_noop_after_load (st : SAM2State)
    (newConfig : PartialSAM2Config) :
    (st.isModelLoaded = true → updateConfig st newConfig = st) ∧
    (st.isModelLoaded = false →
      (updateConfig st newConfig).config = mergeConfig st.config newConfig) := by
  constructor
  · intro h
    simp [updateConfig, h]
  · intro h
    simp [updateConfig, h]

/-- C10 witness: a loaded state is unchanged by an update that tries to
change every field; an unloaded state takes the merged configuration. -/
theorem updateConfig_noop_after_load_witness :
    updateConfig
        { SAM2State.mk0 ⟨.tiny, true, true⟩ with isModelLoaded := true }
        ⟨some .large, some false, some false⟩ =
      { SAM2State.mk0 ⟨.tiny, true, true⟩ with isModelLoaded := true } ∧
    (updateConfig (SAM2State.mk0 ⟨.tiny, true, true⟩)
        ⟨some .large, some false, some false⟩).config =
      mergeConfig ⟨.tiny, true, true⟩ ⟨some .large, some false, some false⟩ :=
  ⟨(updateConfig_noop_after_load
      { SAM2State.mk0 ⟨.tiny, true, true⟩ with isModelLoaded := true }
      ⟨some .large, some false, some false⟩).1 rfl,
   (updateConfig_noop_after_load (SAM2State.mk0 ⟨.tiny, true, true⟩)
      ⟨some .large, some false, some false⟩).2 rfl⟩

/-! ## Theorems about preprocessing -/

/-- A default-0 lookup in a list of bytes bounded by 255 is bounded by 255. -/
lemma getD_le_255 {l : List ℕ} (h : ∀ b ∈ l, b ≤ 255) (i : ℕ) :
    l.getD i 0 ≤ 255 := by
  rcases h' : l[i]? with _ | x
  · simp [List.getD_eq_getElem?_getD, h']
  · obtain ⟨hlt, hx⟩ := List.getElem?_eq_some.mp h'
    have hmem : x ∈ l := hx ▸ List.getElem_mem hlt
    simpa [List.getD_eq_getElem?_getD, h'] using h x hmem

/-- The three planes of `preprocessCore` each have `planeSize` entries. -/
lemma preprocessCore_plane_length (pixels : List ℕ) (c : ℕ) :
    ((List.range planeSize).map fun i => (pixels.getD (4 * i + c) 0 : ℚ) / 255).length
      = planeSize := by
  simp

/-- C4: for every source buffer at any resolution, preprocessing yields
exactly `3*1024*1024` values, each value lies in `[0,1]`, and the layout is
planar channel-major: for every pixel index `i` below `planeSize`, position
`i` holds the R byte of pixel `i` divided by 255, position `planeSize + i`
its G byte divided by 255, and position `2*planeSize + i` its B byte divided
by 255 (bytes of the canvas-resized 1024x1024 image). -/
theorem preprocess_shape (resize : List ℕ → List ℕ) (raw : List ℕ)
    (hbytes : ∀ b ∈ resize raw, b ≤ 255) :
    (preprocessImage resize raw).length = 3 * (1024 * 1024) ∧
    (∀ v ∈ preprocessImage resize raw, 0 ≤ v ∧ v ≤ 1) ∧
    (∀ i < planeSize,
      (preprocessImage resize raw)[i]? =
        some (((resize raw).getD (4 * i) 0 : ℚ) / 255) ∧
      (preprocessImage resize raw)[planeSize + i]? =
        some (((resize raw).getD (4 * i + 1) 0 : ℚ) / 255) ∧
      (preprocessImage resize raw)[2 * planeSize + i]? =
        some (((resize raw).getD (4 * i + 2) 0 : ℚ) / 255)) := by
  have hval : ∀ (k : ℕ), 0 ≤ ((resize raw).getD k 0 : ℚ) / 255 ∧
      ((resize raw).getD k 0 : ℚ) / 255 ≤ 1 := by
    intro k
    constructor
    · positivity
    · rw [div_le_one (by norm_num)]
      exact_mod_cast getD_le_255 hbytes k
  refine ⟨?_, ?_, ?_⟩
  · simp [preprocessImage, preprocessCore, planeSize, targetSize]
  · intro v hv
    simp only [preprocessImage, preprocessCore, List.mem_append, List.mem_map,
      List.mem_range] at hv
    rcases hv with (⟨i, _, rfl⟩ | ⟨i, _, rfl⟩) | ⟨i, _, rfl⟩ <;> exact hval _
  · intro i hi
    refine ⟨?_, ?_, ?_⟩
    · rw [preprocessImage, preprocessCore]
      rw [List.getElem?_append_left (by
        rw [List.length_append, List.length_map, List.length_range,
          List.length_map, List.length_range]; omega)]
      rw [List.getElem?_append_left (by
        rw [List.length_map, List.length_range]; exact hi)]
      rw [List.getElem?_map, List.getElem?_range hi]
      rfl
    · rw [preprocessImage, preprocessCore]
      rw [List.getElem?_append_left (by
        rw [List.length_append, List.length_map, List.length_range,
          List.length_map, List.length_range]; omega)]
      rw [List.getElem?_append_right (by
        rw [List.length_map, List.length_range]; omega)]
      rw [List.length_map, List.length_range]
      have hidx : planeSize + i - planeSize = i := by omega
      rw [hidx, List.getElem?_map, List.getElem?_range hi]
      rfl
    · rw [preprocessImage, preprocessCore]
      rw [List.getElem?_append_right (by
        rw [List.length_append, List.length_map, List.length_range,
          List.length_map, List.length_range]; omega)]
      rw [List.length_append, List.length_map, List.length_range,
        List.length_map, List.length_range]
      have hidx : 2 * planeSize + i - (planeSize + planeSize) = i := by omega
      rw [hidx, List.getElem?_map, List.getElem?_range hi]
      rfl

/-- C4 witness: the theorem applied to a constant-byte resize oracle. -/
theorem preprocess_shape_witness :
    (∀ b ∈ (List.replicate (4 * (1024 * 1024)) 17 : List ℕ), b ≤ 255) ∧
    (preprocessImage (fun _ => List.replicate (4 * (1024 * 1024)) 17)
        []).length = 3 * (1024 * 1024) :=
  ⟨fun b hb => by rw [List.eq_of_mem_replicate hb]; norm_num,
   (preprocess_shape (fun _ => List.replicate (4 * (1024 * 1024)) 17) []
      (fun b hb => by rw [List.eq_of_mem_replicate hb]; norm_num)).1⟩

/-! ## Theorems about the demo generator and mask post-processing -/

/-- Length of a concatenation of equally long blocks. -/
lemma length_flatMap_const {α β : Type} (l : List α) (f : α → List β) (w : ℕ)
    (hf : ∀ a, (f a).length = w) : (l.flatMap f).length = l.length * w := by
  induction l with
  | nil => simp
  | cons a as ih => simp [ih, hf, Nat.succ_mul, Nat.add_comm]

/-- A demo mask covers the full pixel grid: `height * width` entries. -/
lemma demoMask_length (width height : ℕ) (cx cy : ℤ) (radius : ℚ)
    (noise : ℤ → ℤ → ℚ) :
    (demoMask width height cx cy radius noise).length = height * width := by
  rw [demoMask, length_flatMap_const _ _ width
    (fun a => by rw [List.length_map, List.length_range]), List.length_range]

/-- Every demo-mask entry is 0 or 255. -/
lemma demoMask_values (width height : ℕ) (cx cy : ℤ) (radius : ℚ)
    (noise : ℤ → ℤ → ℚ) :
    ∀ v ∈ demoMask width height cx cy radius noise, v = 0 ∨ v = 255 := by
  intro v hv
  simp only [demoMask, List.mem_flatMap, List.mem_map, List.mem_range] at hv
  obtain ⟨y, -, x, -, rfl⟩ := hv
  simp only [demoMaskPixel]
  split
  · right; rfl
  · left; rfl

/-- The demo accumulation produces one mask and one score per label-1 point. -/
lemma demoStep_lengths (rands : ℕ → DemoRand) (width height : ℕ)
    (points : List SAM2Point) :
    ∀ k, (demoStep rands width height k points).1.length =
        (points.filter fun p => p.label = 1).length ∧
      (demoStep rands width height k points).2.length =
        (points.filter fun p => p.label = 1).length := by
  induction points with
  | nil => intro k; simp [demoStep]
  | cons p ps ih =>
    intro k
    by_cases hp : p.label = 1
    · simp [demoStep, hp, (ih (k + 1)).1, (ih (k + 1)).2]
    · simp [demoStep, hp, (ih (k + 1)).1, (ih (k + 1)).2]

/-- Every mask accumulated by the demo generator has full-grid data of
0/255 entries. -/
lemma demoStep_mask_shape (rands : ℕ → DemoRand) (width height : ℕ)
    (points : List SAM2Point) :
    ∀ k, ∀ m ∈ (demoStep rands width height k points).1,
      m.data.length = m.width * m.height ∧ ∀ v ∈ m.data, v = 0 ∨ v = 255 := by
  induction points with
  | nil => intro k m hm; simp [demoStep] at hm
  | cons p ps ih =>
    intro k m hm
    by_cases hp : p.label = 1
    · simp only [demoStep, hp, if_true, List.mem_cons] at hm
      rcases hm with rfl | hm
      · refine ⟨?_, demoMask_values _ _ _ _ _ _⟩
        simpa [Nat.mul_comm] using demoMask_length width height ⌊p.x⌋ ⌊p.y⌋ _ _
      · exact ih (k + 1) m hm
    · simp only [demoStep, hp, if_false] at hm
      exact ih (k + 1) m hm

/-- Every score accumulated by the demo generator lies in `[0.7, 0.95]`
provided the random draws lie in `[0, 1)`. -/
lemma demoStep_score_range (rands : ℕ → DemoRand) (width height : ℕ)
    (points : List SAM2Point)
    (hscore : ∀ n, 0 ≤ (rands n).score ∧ (rands n).score < 1) :
    ∀ k, ∀ s ∈ (demoStep rands width height k points).2,
      7 / 10 ≤ s ∧ s ≤ 19 / 20 := by
  induction points with
  | nil => intro k s hs; simp [demoStep] at hs
  | cons p ps ih =>
    intro k s hs
    by_cases hp : p.label = 1
    · simp only [demoStep, hp, if_true, List.mem_cons] at hs
      rcases hs with rfl | hs
      · obtain ⟨h0, h1⟩ := hscore k
        constructor
        · nlinarith
        · nlinarith
      · exact ih (k + 1) s hs
    · simp only [demoStep, hp, if_false] at hs
      exact ih (k + 1) s hs

/-- C5: the demo fallback produces exactly one mask and one score per point
labeled 1 (positive) and none for other labels; a point set whose labels are
all 0 (negative) yields empty mask and score lists; and every generated
score lies in `[0.7, 0.95]` when the random draws lie in `[0, 1)`. -/
theorem demo_positive_points (rands : ℕ → DemoRand) (procRand : ℚ)
    (points : List SAM2Point) (width height : ℕ)
    (hscore : ∀ n, 0 ≤ (rands n).score ∧ (rands n).score < 1) :
    (createDemoSegmentation rands procRand points width height).masks.length =
      (points.filter fun p => p.label = 1).length ∧
    (createDemoSegmentation rands procRand points width height).scores.length =
      (points.filter fun p => p.label = 1).length ∧
    ((∀ p ∈ points, p.label = 0) →
      (createDemoSegmentation rands procRand points width height).masks = [] ∧
      (createDemoSegmentation rands procRand points width height).scores = []) ∧
    (∀ s ∈ (createDemoSegmentation rands procRand points width height).scores,
      7 / 10 ≤ s ∧ s ≤ 19 / 20) := by
  have hlen := demoStep_lengths rands width height points 0
  refine ⟨by simp only [createDemoSegmentation]; exact hlen.1,
    by simp only [createDemoSegmentation]; exact hlen.2, ?_, ?_⟩
  · intro hneg
    have hfil : points.filter (fun p => p.label = 1) = [] := by
      rw [List.filter_eq_nil_iff]
      intro p hp
      simp [hneg p hp]
    constructor
    · refine List.eq_nil_of_length_eq_zero ?_
      simp only [createDemoSegmentation]
      rw [hlen.1, hfil]
      rfl
    · refine List.eq_nil_of_length_eq_zero ?_
      simp only [createDemoSegmentation]
      rw [hlen.2, hfil]
      rfl
  · simp only [createDemoSegmentation]
    exact demoStep_score_range rands width height points hscore 0

/-- C5 witness: one positive and one negative point; the random draws are
all 0. -/
theorem demo_positive_points_witness :
    (∀ n : ℕ, (0 : ℚ) ≤ ((fun _ => (⟨0, fun _ _ => 0, 0⟩ : DemoRand)) n).score ∧
      ((fun _ => (⟨0, fun _ _ => 0, 0⟩ : DemoRand)) n).score < 1) ∧
    (createDemoSegmentation (fun _ => ⟨0, fun _ _ => 0, 0⟩) 0
        [⟨2, 2, 1⟩, ⟨1, 1, 0⟩] 4 4).masks.length =
      (([⟨2, 2, 1⟩, ⟨1, 1, 0⟩] : List SAM2Point).filter
        fun p => p.label = 1).length :=
  ⟨fun _ => ⟨le_refl 0, by norm_num⟩,
   (demo_positive_points (fun _ => ⟨0, fun _ _ => 0, 0⟩) 0
      [⟨2, 2, 1⟩, ⟨1, 1, 0⟩] 4 4 (fun _ => ⟨le_refl 0, by norm_num⟩)).1⟩

/-- C9: in the real-model path (given the decoder tensor shape contract:
the flat mask data has `numMasks * height * width` entries and
`iou_predictions` one score per mask) and in the demo path, every produced
result has equally long mask and score lists, every mask has
`width * height` data entries, and every data entry is 0 or 255. -/
theorem segmentation_mask_invariants :
    (∀ (dec : DecoderOut) (elapsed : ℚ),
      dec.masksData.length = dec.numMasks * (dec.height * dec.width) →
      dec.iouData.length = dec.numMasks →
      ((segmentReal dec elapsed).masks.length =
          (segmentReal dec elapsed).scores.length ∧
        ∀ m ∈ (segmentReal dec elapsed).masks,
          m.data.length = m.width * m.height ∧
          ∀ v ∈ m.data, v = 0 ∨ v = 255)) ∧
    (∀ (rands : ℕ → DemoRand) (procRand : ℚ) (points : List SAM2Point)
        (width height : ℕ),
      (createDemoSegmentation rands procRand points width height).masks.length =
          (createDemoSegmentation rands procRand points width height).scores.length ∧
        ∀ m ∈ (createDemoSegmentation rands procRand points width height).masks,
          m.data.length = m.width * m.height ∧
          ∀ v ∈ m.data, v = 0 ∨ v = 255) := by
  constructor
  · intro dec elapsed hdata hiou
    constructor
    · simp [segmentReal, processMasks, hiou]
    · intro m hm
      simp only [segmentReal, processMasks, List.mem_map, List.mem_range] at hm
      obtain ⟨i, hi, rfl⟩ := hm
      constructor
      · simp only [List.length_map, List.length_take, List.length_drop, hdata]
        have h1 : dec.height * dec.width ≤
            dec.numMasks * (dec.height * dec.width) - i * (dec.height * dec.width) := by
          have : (i + 1) * (dec.height * dec.width) ≤
              dec.numMasks * (dec.height * dec.width) :=
            Nat.mul_le_mul_right _ hi
          calc dec.height * dec.width
              = (i + 1) * (dec.height * dec.width) - i * (dec.height * dec.width) := by
                rw [Nat.add_mul]; omega
            _ ≤ dec.numMasks * (dec.height * dec.width) - i * (dec.height * dec.width) := by
                omega
        rw [min_eq_left h1, Nat.mul_comm]
      · intro v hv
        simp only [List.mem_map] at hv
        obtain ⟨q, -, rfl⟩ := hv
        split
        · right; rfl
        · left; rfl
  · intro rands procRand points width height
    have hlen := demoStep_lengths rands width height points 0
    constructor
    · simp only [createDemoSegmentation]
      rw [hlen.1, hlen.2]
    · simp only [createDemoSegmentation]
      exact demoStep_mask_shape rands width height points 0

/-- C9 witness: the real-path half applied to a concrete two-mask decoder
output satisfying the shape contract. -/
theorem segmentation_mask_invariants_witness :
    (([(1 : ℚ), -1, 0, 5]).length = 2 * (1 * 2) ∧
      ([(1 : ℚ) / 2, 3 / 4]).length = 2) ∧
    ((segmentReal ⟨1, 2, 1, 2, [1, -1, 0, 5], [1 / 2, 3 / 4]⟩ 7).masks.length =
      (segmentReal ⟨1, 2, 1, 2, [1, -1, 0, 5], [1 / 2, 3 / 4]⟩ 7).scores.length) :=
  ⟨⟨by norm_num, by norm_num⟩,
   (segmentation_mask_invariants.1 ⟨1, 2, 1, 2, [1, -1, 0, 5], [1 / 2, 3 / 4]⟩ 7
      (by norm_num) (by norm_num)).1⟩

/-! ## Theorems about the capture loop -/

/-- Comparing a downscaled frame with itself finds no differing pixel. -/
lemma motionDiffCount_self (d : List ℕ) : motionDiffCount d d = 0 := by
  rw [motionDiffCount, List.countP_eq_zero]
  intro p _
  simp [pixelDiffers]

/-- When the previous and current frames downscale to the same pixels, the
change percentage is 0. -/
lemma detectMotion_identical (downscale : Frame → List ℕ) (lf img : Frame)
    (threshold : ℚ) (hpix : downscale lf = downscale img) :
    (detectMotion downscale (some lf) true threshold img).changePercent = 0 := by
  simp [detectMotion, ← hpix, motionDiffCount_self]

/-- When the previous and current frames downscale to the same pixels and the
threshold is nonnegative, no motion is reported. -/
lemma detectMotion_identical_hasMotion (downscale : Frame → List ℕ)
    (lf img : Frame) (threshold : ℚ) (hpix : downscale lf = downscale img)
    (hthr : 0 ≤ threshold) :
    (detectMotion downscale (some lf) true threshold img).hasMotion = false := by
  simp only [detectMotion, ← hpix, motionDiffCount_self, Nat.cast_zero,
    zero_div, zero_mul]
  rw [decide_eq_false_iff_not]
  push_neg
  exact mul_nonneg hthr (by norm_num)

/-- C6: on a capture tick with motion gating enabled, a previous frame
present, the current frame downscaling to the same pixels as the previous
one (as identical frames do), and a positive motion threshold, the computed
change percentage is 0 and the tick ends without a detection call while the
frame buffer and last-frame bookkeeping are still updated. -/
theorem motion_gate_skips_identical_frame (cfg : CaptureConfig)
    (st : CaptureState) (target : WatchTarget) (img lf : Frame)
    (resp : Option DetectResponse)
    (hmd : cfg.motionDetection = true)
    (hlast : st.lastFrame = some lf)
    (hpix : cfg.downscale lf = cfg.downscale img)
    (hproc : st.processingFrame = false)
    (hthr : 0 < cfg.motionThreshold) :
    (detectMotion cfg.downscale st.lastFrame cfg.motionDetection
        cfg.motionThreshold img).changePercent = 0 ∧
    captureFrame cfg st (some target) (some img) resp =
      ⟨false, lastThree (st.frameBuffer ++ [img]), some img, none⟩ := by
  have hmot : (detectMotion cfg.downscale (some lf) true cfg.motionThreshold
      img).hasMotion = false :=
    detectMotion_identical_hasMotion cfg.downscale lf img cfg.motionThreshold
      hpix (le_of_lt hthr)
  constructor
  · rw [hlast, hmd]
    exact detectMotion_identical cfg.downscale lf img cfg.motionThreshold hpix
  · simp [captureFrame, capturePhase1, hproc, hlast, hmd, hmot]

/-- C6 witness: a tick whose frame equals the stored previous frame, with
threshold 0.15. -/
theorem motion_gate_skips_identical_frame_witness :
    ((0 : ℚ) < 3 / 20) ∧
    captureFrame ⟨true, 3 / 20, fun _ => [0, 0, 0, 255]⟩
        ⟨[], some "f", false⟩ (some ⟨"person walking", none, 7 / 10⟩)
        (some "f") none =
      ⟨false, lastThree ([] ++ ["f"]), some "f", none⟩ :=
  ⟨by norm_num,
   (motion_gate_skips_identical_frame ⟨true, 3 / 20, fun _ => [0, 0, 0, 255]⟩
      ⟨[], some "f", false⟩ ⟨"person walking", none, 7 / 10⟩ "f" "f" none
      rfl rfl rfl rfl (by norm_num)).2⟩

/-- A description containing "falling" is classified as a complex action. -/
lemma isComplexAction_falling (desc : String)
    (h : strIncludes desc "falling" = true) : isComplexAction desc = true := by
  rw [isComplexAction, List.any_eq_true]
  exact ⟨"falling", by simp [complexKeywords], h⟩

/-- C7, amended.  For a target whose description contains "falling" and a
fresh session (empty buffer, no previous frame), the first capture updates
the buffer to the single new frame but does not call detection; the second
capture, now holding two buffered frames, calls detection provided it passes
the motion gate (motion detection off, or motion reported between the two
frames). -/
theorem complex_action_two_frame_gate (cfg : CaptureConfig)
    (target : WatchTarget) (f1 f2 : Frame) (resp1 resp2 : Option DetectResponse)
    (hdesc : strIncludes target.description "falling" = true)
    (hpass : cfg.motionDetection = false ∨
      (detectMotion cfg.downscale (some f1) cfg.motionDetection
          cfg.motionThreshold f2).hasMotion = true) :
    (captureFrame cfg ⟨[], none, false⟩ (some target) (some f1)
        resp1).detectionCalled = false ∧
    (captureFrame cfg ⟨[], none, false⟩ (some target) (some f1)
        resp1).frameBuffer = [f1] ∧
    (captureFrame cfg ⟨[], none, false⟩ (some target) (some f1)
        resp1).lastFrame = some f1 ∧
    (captureFrame cfg ⟨[f1], some f1, false⟩ (some target) (some f2)
        resp2).frameBuffer = [f1, f2] ∧
    (captureFrame cfg ⟨[f1], some f1, false⟩ (some target) (some f2)
        resp2).detectionCalled = true := by
  have hc := isComplexAction_falling target.description hdesc
  have htick1 : capturePhase1 cfg ⟨[], none, false⟩ (some target) (some f1) =
      .noCall ⟨false, [f1], some f1, none⟩ := by
    simp [capturePhase1, lastThree, hc]
  have htick2 : capturePhase1 cfg ⟨[f1], some f1, false⟩ (some target)
      (some f2) = .call [f1, f2] (some f2) := by
    rcases hpass with hmd | hmot
    · simp [capturePhase1, lastThree, hc, hmd]
    · simp [capturePhase1, lastThree, hc, hmot]
  refine ⟨?_, ?_, ?_, ?_, ?_⟩ <;> simp [captureFrame, htick1, htick2]

/-- C7 witness: the amended theorem at a concrete fresh session with motion
gating disabled. -/
theorem complex_action_two_frame_gate_witness :
    strIncludes "person falling down" "falling" = true ∧
    (captureFrame ⟨false, 3 / 20, fun _ => []⟩ ⟨[], none, false⟩
        (some ⟨"person falling down", none, 7 / 10⟩) (some "f1")
        none).detectionCalled = false ∧
    (captureFrame ⟨false, 3 / 20, fun _ => []⟩ ⟨["f1"], some "f1", false⟩
        (some ⟨"person falling down", none, 7 / 10⟩) (some "f2")
        none).detectionCalled = true := by
  have hdesc : strIncludes "person falling down" "falling" = true := by decide
  have h := complex_action_two_frame_gate ⟨false, 3 / 20, fun _ => []⟩
    ⟨"person falling down", none, 7 / 10⟩ "f1" "f2" none none hdesc (Or.inl rfl)
  exact ⟨hdesc, h.1, h.2.2.2.2⟩

/-- C7, counterexample.  Claimed: with a "falling" target and a fresh
session, the second capture (two frames buffered) does trigger a detection
call.  With the default configuration (motion gating on, threshold 0.15) and
a second frame identical to the first, the motion gate computes a 0% change
and skips the second capture as well: two frames are buffered and yet no
detection call is made. -/
theorem complex_action_second_capture_counterexample :
    (captureFrame ⟨true, 3 / 20, fun _ => [0, 0, 0, 255]⟩ ⟨[], none, false⟩
        (some ⟨"person falling down", none, 7 / 10⟩) (some "f")
        none).detectionCalled = false ∧
    (captureFrame ⟨true, 3 / 20, fun _ => [0, 0, 0, 255]⟩
        ⟨["f"], some "f", false⟩
        (some ⟨"person falling down", none, 7 / 10⟩) (some "f")
        none).frameBuffer = ["f", "f"] ∧
    (captureFrame ⟨true, 3 / 20, fun _ => [0, 0, 0, 255]⟩
        ⟨["f"], some "f", false⟩
        (some ⟨"person falling down", none, 7 / 10⟩) (some "f")
        none).detectionCalled = false := by
  have hc : isComplexAction "person falling down" = true := by decide
  have hmot : (detectMotion (fun _ => [0, 0, 0, 255]) (some "f") true (3 / 20)
      "f").hasMotion = false :=
    detectMotion_identical_hasMotion _ "f" "f" _ rfl (by norm_num)
  refine ⟨?_, ?_, ?_⟩ <;>
    simp [captureFrame, capturePhase1, lastThree, hc, hmot]

/-- A tick that ends without dispatching the detection call hands no alert
to `onDetection`. -/
lemma capturePhase1_noCall_alert (cfg : CaptureConfig) (st : CaptureState)
    (wt : Option WatchTarget) (frame : Option Frame) (out : CaptureOutcome)
    (h : capturePhase1 cfg st wt frame = .noCall out) : out.alert = none := by
  rcases wt with _ | target
  · simp only [capturePhase1] at h
    rw [← CapturePhase1.noCall.inj h]
  · rcases frame with _ | img
    · simp only [capturePhase1] at h
      rw [← CapturePhase1.noCall.inj h]
    · simp only [capturePhase1] at h
      by_cases hproc : st.processingFrame = true
      · rw [if_pos hproc] at h
        rw [← CapturePhase1.noCall.inj h]
      · rw [if_neg hproc] at h
        by_cases hb1 : (cfg.motionDetection && st.lastFrame.isSome &&
            !(detectMotion cfg.downscale st.lastFrame cfg.motionDetection
                cfg.motionThreshold img).hasMotion) = true
        · rw [if_pos hb1] at h
          rw [← CapturePhase1.noCall.inj h]
        · rw [if_neg hb1] at h
          by_cases hb2 : (isComplexAction target.description &&
              decide ((lastThree (st.frameBuffer ++ [img])).length < 2)) = true
          · rw [if_pos hb2] at h
            rw [← CapturePhase1.noCall.inj h]
          · rw [if_neg hb2] at h
            exact CapturePhase1.noConfusion h

/-- C2: whenever the upstream response's confidence is strictly below the
watch target's threshold, any alert the capture loop delivers to
`onDetection` for that tick (through the `/api/detect` route's threshold
enforcement) has `detected = false`, whatever the upstream boolean was. -/
theorem threshold_forces_not_detected (cfg : CaptureConfig)
    (st : CaptureState) (target : WatchTarget) (img : Frame)
    (upstream : DetectResponse)
    (hconf : upstream.confidence < target.confidence) :
    ∀ a, (captureFrame cfg st (some target) (some img)
        (some (detectRoute upstream target))).alert = some a →
      a.detected = false := by
  intro a ha
  rw [captureFrame] at ha
  cases hp : capturePhase1 cfg st (some target) (some img) with
  | noCall out =>
    rw [hp] at ha
    simp [capturePhase1_noCall_alert cfg st _ _ out hp] at ha
  | call buf lf =>
    rw [hp] at ha
    simp only [capturePhase2, Option.map_some] at ha
    obtain rfl := (Option.some.injEq _ _).mp ha
    simp [detectRoute, hconf]

/-- C2 witness: the claimed instance — upstream reports detected with
confidence 0.5, the target threshold is 0.7, and the delivered alert has
`detected = false`. -/
theorem threshold_forces_not_detected_witness :
    ((1 : ℚ) / 2 < 7 / 10) ∧
    (captureFrame ⟨false, 3 / 20, fun _ => []⟩ ⟨[], none, false⟩
        (some ⟨"person walking", none, 7 / 10⟩) (some "f")
        (some (detectRoute ⟨true, 1 / 2⟩
          ⟨"person walking", none, 7 / 10⟩))).alert =
      some ⟨false, 1 / 2, "f"⟩ ∧
    DetectionAlert.detected ⟨false, 1 / 2, "f"⟩ = false := by
  have hc : isComplexAction "person walking" = false := by decide
  have halert : (captureFrame ⟨false, 3 / 20, fun _ => []⟩ ⟨[], none, false⟩
      (some ⟨"person walking", none, 7 / 10⟩) (some "f")
      (some (detectRoute ⟨true, 1 / 2⟩
        ⟨"person walking", none, 7 / 10⟩))).alert =
      some ⟨false, 1 / 2, "f"⟩ := by
    simp only [captureFrame, capturePhase1, capturePhase2, lastThree,
      detectRoute, hc]
    norm_num
  exact ⟨by norm_num, halert,
    threshold_forces_not_detected ⟨false, 3 / 20, fun _ => []⟩
      ⟨[], none, false⟩ ⟨"person walking", none, 7 / 10⟩ "f" ⟨true, 1 / 2⟩
      (by norm_num) ⟨false, 1 / 2, "f"⟩ halert⟩

/-- C3, counterexample.  Claimed: a result resolving after monitoring was
stopped is never surfaced (the `onDetection` callback is not invoked for
it).  In this concrete run the tick dispatches a detection call, monitoring
is stopped (the timer effect clears the interval — that half holds), and the
late successful response still produces an alert for `onDetection`. -/
theorem stale_alert_counterexample :
    (stopMonitoringMidFlight ⟨false, 3 / 20, fun _ => []⟩ ⟨[], none, false⟩
        ⟨"person walking", none, 7 / 10⟩ "f" (some ⟨true, 9 / 10⟩)).1 =
      false ∧
    (stopMonitoringMidFlight ⟨false, 3 / 20, fun _ => []⟩ ⟨[], none, false⟩
        ⟨"person walking", none, 7 / 10⟩ "f" (some ⟨true, 9 / 10⟩)).2 =
      some ⟨true, 9 / 10, "f"⟩ := by
  have hc : isComplexAction "person walking" = false := by decide
  constructor <;>
    simp [stopMonitoringMidFlight, capturePhase1, capturePhase2,
      timerAfterEffect, lastThree, hc]

/-- C3, amended.  Stopping monitoring cancels the periodic capture timer
immediately, but an in-flight detection call is not dropped: when it later
resolves successfully, its alert is still handed to `onDetection` — the
response handler does not consult the monitoring flag. -/
theorem stop_cancels_timer_but_inflight_alert_surfaces (cfg : CaptureConfig)
    (st : CaptureState) (target : WatchTarget) (img : Frame)
    (r : DetectResponse) (buf : List Frame) (lf : Option Frame)
    (hcall : capturePhase1 cfg st (some target) (some img) = .call buf lf) :
    (stopMonitoringMidFlight cfg st target img (some r)).1 = false ∧
    (stopMonitoringMidFlight cfg st target img (some r)).2 =
      some ⟨r.detected, r.confidence, img⟩ := by
  rw [stopMonitoringMidFlight, hcall]
  exact ⟨by simp [timerAfterEffect], by simp [capturePhase2]⟩

/-- C3 witness: the amended theorem at a concrete in-flight call. -/
theorem stop_cancels_timer_witness :
    capturePhase1 ⟨false, 3 / 20, fun _ => []⟩ ⟨[], none, false⟩
        (some ⟨"person walking", none, 7 / 10⟩) (some "f") =
      .call ["f"] (some "f") ∧
    (stopMonitoringMidFlight ⟨false, 3 / 20, fun _ => []⟩ ⟨[], none, false⟩
        ⟨"person walking", none, 7 / 10⟩ "f" (some ⟨false, 1 / 4⟩)).2 =
      some ⟨false, 1 / 4, "f"⟩ := by
  have hc : isComplexAction "person walking" = false := by decide
  have hcall : capturePhase1 ⟨false, 3 / 20, fun _ => []⟩ ⟨[], none, false⟩
      (some ⟨"person walking", none, 7 / 10⟩) (some "f") =
      .call ["f"] (some "f") := by
    simp [capturePhase1, lastThree, hc]
  exact ⟨hcall,
    (stop_cancels_timer_but_inflight_alert_surfaces ⟨false, 3 / 20, fun _ => []⟩
      ⟨[], none, false⟩ ⟨"person walking", none, 7 / 10⟩ "f" ⟨false, 1 / 4⟩
      ["f"] (some "f") hcall).2⟩

end CameraMonitor
